import Mathlib

/-!
Creational patterns: abstract factory and factory method.

A shallow embedding of `creational_patterns/abstract_factory.h` and
`creational_patterns/factory_method.h`.

* A C++ object behind an abstract interface is a record holding its instance
  data (`Self`, `self`) and one field per virtual method, each taking the
  instance data as its receiver. The virtual call `p->m()` is `p.m p.self`.
* `new` and `delete` act on an explicit `Memory`: a set of live addresses
  together with a log of the allocations, dereferences and releases performed.
  Objects are immutable (every method is `const`, no class has a data member),
  so a pointer carries its pointee and the memory records only whether the
  address is still live. Dereferencing or deleting an address that is not live
  is undefined behaviour in C++ and yields `none` here.
* `std::cout` is the `cout` field of `World`: the text written so far.
-/

set_option maxRecDepth 8000

/-! ## Free store -/

/-- One step of an object's lifetime on the free store. -/
inductive Event where
  | alloc (addr : Nat)
  | use (addr : Nat)
  | free (addr : Nat)
  deriving DecidableEq, Repr

/-- The free store: the next unused address, the addresses currently live and
the history of lifetime events, oldest first. -/
structure Memory where
  next : Nat
  live : List Nat
  log : List Event
  deriving DecidableEq, Repr

/-- A pointer to an immutable object of interface type `α`. -/
structure Pointer (α : Type u) where
  addr : Nat
  obj : α

/-- The expression `new T()`: a fresh address becomes live and points to `x`. -/
def Memory.new {α : Type u} (x : α) (m : Memory) : Pointer α × Memory :=
  (⟨m.next, x⟩,
   { next := m.next + 1, live := m.next :: m.live, log := m.log ++ [Event.alloc m.next] })

/-- The expressions `*p` and `p->`: the pointee, provided the address is live. -/
def Pointer.deref {α : Type u} (p : Pointer α) (m : Memory) : Option (α × Memory) :=
  if p.addr ∈ m.live then
    some (p.obj, { m with log := m.log ++ [Event.use p.addr] })
  else none

/-- The statement `delete p;`: the address stops being live. -/
def Pointer.delete {α : Type u} (p : Pointer α) (m : Memory) : Option Memory :=
  if p.addr ∈ m.live then
    some { m with live := m.live.erase p.addr, log := m.log ++ [Event.free p.addr] }
  else none

/-- The process state the routines act on: standard output and the free store. -/
structure World where
  cout : String
  mem : Memory
  deriving DecidableEq, Repr

/-- The expression `std::cout << s`. -/
def World.print (w : World) (s : String) : World :=
  { w with cout := w.cout ++ s }

/-- The expression `std::cout << std::endl`: a newline (and a flush). -/
def World.endl (w : World) : World :=
  w.print "\n"

/-! ## Text predicates used by the statements -/

/-- The text `t` occurs in `s` as a contiguous substring. -/
def Occurs (t s : String) : Prop :=
  t.data <:+: s.data

instance (t s : String) : Decidable (Occurs t s) :=
  inferInstanceAs (Decidable (t.data <:+: s.data))

/-- The texts `t₁`, `t₂`, `t₃` occur in `s` one after the other, without overlap. -/
def OccurInOrder (t₁ t₂ t₃ s : String) : Prop :=
  ∃ u v w x : String, s = u ++ t₁ ++ v ++ t₂ ++ w ++ t₃ ++ x

/-! ## abstract_factory.h -/

/-- The class `AbstractProductA`. -/
structure AbstractProductA where
  Self : Type
  self : Self
  UsefulFunctionA : Self → String

/-- The class `ConcreteProductA1`. -/
def ConcreteProductA1 : AbstractProductA where
  Self := Unit
  self := ()
  UsefulFunctionA := fun _ => "The result of the product A1."

/-- The class `ConcreteProductA2`. -/
def ConcreteProductA2 : AbstractProductA where
  Self := Unit
  self := ()
  UsefulFunctionA := fun _ => "The result of the product A2."

/-- The class `AbstractProductB`. The collaborator is passed by reference to a
live object, hence as the object itself. -/
structure AbstractProductB where
  Self : Type
  self : Self
  UsefulFunctionB : Self → String
  AnotherUsefulFunctionB : Self → AbstractProductA → String

/-- The class `ConcreteProductB1`. -/
def ConcreteProductB1 : AbstractProductB where
  Self := Unit
  self := ()
  UsefulFunctionB := fun _ => "The result of the product B1."
  AnotherUsefulFunctionB := fun _ collaborator =>
    let result := collaborator.UsefulFunctionA collaborator.self
    "The result of the B1 collaborating with ( " ++ result ++ " )"

/-- The class `ConcreteProductB2`. -/
def ConcreteProductB2 : AbstractProductB where
  Self := Unit
  self := ()
  UsefulFunctionB := fun _ => "The result of the product B2."
  AnotherUsefulFunctionB := fun _ collaborator =>
    let result := collaborator.UsefulFunctionA collaborator.self
    "The result of the B2 collaborating with ( " ++ result ++ " )"

/-- The class `AbstractFactory`: each creation operation returns an owning
pointer and may act on the free store. -/
structure AbstractFactory where
  Self : Type
  self : Self
  CreateProductA : Self → Memory → Pointer AbstractProductA × Memory
  CreateProductB : Self → Memory → Pointer AbstractProductB × Memory

/-- The class `ConcreteFactory1`. -/
def ConcreteFactory1 : AbstractFactory where
  Self := Unit
  self := ()
  CreateProductA := fun _ m => Memory.new ConcreteProductA1 m
  CreateProductB := fun _ m => Memory.new ConcreteProductB1 m

/-- The class `ConcreteFactory2`. -/
def ConcreteFactory2 : AbstractFactory where
  Self := Unit
  self := ()
  CreateProductA := fun _ m => Memory.new ConcreteProductA2 m
  CreateProductB := fun _ m => Memory.new ConcreteProductB2 m

/-- The object `*factory.CreateProductA()` when the call is made in memory `m`. -/
def AbstractFactory.madeA (factory : AbstractFactory) (m : Memory) : AbstractProductA :=
  (factory.CreateProductA factory.self m).1.obj

/-- The object `*factory.CreateProductB()` when the call is made in memory `m`. -/
def AbstractFactory.madeB (factory : AbstractFactory) (m : Memory) : AbstractProductB :=
  (factory.CreateProductB factory.self m).1.obj

namespace abstract_factory

/-- The function `ClientCode(const AbstractFactory &factory)`. -/
def ClientCode (factory : AbstractFactory) (w : World) : Option World :=
  let (product_a, m) := factory.CreateProductA factory.self w.mem
  let (product_b, m) := factory.CreateProductB factory.self m
  match product_b.deref m with
  | none => none
  | some (b, m) =>
    let w := ((World.mk w.cout m).print (b.UsefulFunctionB b.self)).print "\n"
    match product_b.deref w.mem with
    | none => none
    | some (b, m) =>
      match product_a.deref m with
      | none => none
      | some (a, m) =>
        let w := ((World.mk w.cout m).print (b.AnotherUsefulFunctionB b.self a)).print "\n"
        match product_a.delete w.mem with
        | none => none
        | some m =>
          match product_b.delete m with
          | none => none
          | some m => some (World.mk w.cout m)

/-- The function `MainAbstractFactory()`, without its constant return value. -/
def MainAbstractFactory (w : World) : Option World :=
  let w := w.print "Client: Testing client code with the first factory type:\n"
  let (f1, m) := Memory.new ConcreteFactory1 w.mem
  match f1.deref m with
  | none => none
  | some (f, m) =>
    match ClientCode f (World.mk w.cout m) with
    | none => none
    | some w =>
      match f1.delete w.mem with
      | none => none
      | some m =>
        let w := (World.mk w.cout m).endl
        let w := w.print "Client: Testing the same client code with the second factory type:\n"
        let (f2, m) := Memory.new ConcreteFactory2 w.mem
        match f2.deref m with
        | none => none
        | some (f, m) =>
          match ClientCode f (World.mk w.cout m) with
          | none => none
          | some w =>
            match f2.delete w.mem with
            | none => none
            | some m => some (World.mk w.cout m)

/-- The pointer `product_a` that `ClientCode(factory)` obtains when started in
memory `m`. -/
def obtainedA (factory : AbstractFactory) (m : Memory) : Pointer AbstractProductA :=
  (factory.CreateProductA factory.self m).1

/-- The pointer `product_b` that `ClientCode(factory)` obtains when started in
memory `m`: the second creation call runs in the memory left by the first. -/
def obtainedB (factory : AbstractFactory) (m : Memory) : Pointer AbstractProductB :=
  (factory.CreateProductB factory.self (factory.CreateProductA factory.self m).2).1

/-- The memory in which `ClientCode(factory)` starts using its two products. -/
def afterCreation (factory : AbstractFactory) (m : Memory) : Memory :=
  (factory.CreateProductB factory.self (factory.CreateProductA factory.self m).2).2

/-- The creation contract the client relies on: once both creation calls have
returned, the two pointers refer to live objects at different addresses. -/
def Owned (factory : AbstractFactory) (m : Memory) : Prop :=
  (obtainedA factory m).addr ∈ (afterCreation factory m).live
    ∧ (obtainedB factory m).addr ∈ (afterCreation factory m).live
    ∧ (obtainedA factory m).addr ≠ (obtainedB factory m).addr

instance (factory : AbstractFactory) (m : Memory) : Decidable (Owned factory m) :=
  inferInstanceAs (Decidable (_ ∧ _ ∧ _))

end abstract_factory

/-! ## factory_method.h -/

/-- The class `Product`. -/
structure Product where
  Self : Type
  self : Self
  Operation : Self → String

/-- The class `ConcreteProduct1`. The braces of the source text are written
as the escapes `\x7b` and `\x7d`. -/
def ConcreteProduct1 : Product where
  Self := Unit
  self := ()
  Operation := fun _ => "\x7bResult of the ConcreteProduct1\x7d"

/-- The class `ConcreteProduct2`. -/
def ConcreteProduct2 : Product where
  Self := Unit
  self := ()
  Operation := fun _ => "\x7bResult of the ConcreteProduct2\x7d"

/-- The class `Creator`: its one virtual method is `FactoryMethod`. -/
structure Creator where
  Self : Type
  self : Self
  FactoryMethod : Self → Memory → Pointer Product × Memory

/-- The non-virtual member function `Creator::SomeOperation()`: the returned
text together with the free store it leaves behind. -/
def Creator.SomeOperation (this : Creator) (m : Memory) : Option (String × Memory) :=
  let (product, m) := this.FactoryMethod this.self m
  match product.deref m with
  | none => none
  | some (p, m) =>
    let result := "Creator: The same creator's code has just worked with " ++ p.Operation p.self
    match product.delete m with
    | none => none
    | some m => some (result, m)

/-- The class `ConcreteCreator1`. -/
def ConcreteCreator1 : Creator where
  Self := Unit
  self := ()
  FactoryMethod := fun _ m => Memory.new ConcreteProduct1 m

/-- The class `ConcreteCreator2`. -/
def ConcreteCreator2 : Creator where
  Self := Unit
  self := ()
  FactoryMethod := fun _ m => Memory.new ConcreteProduct2 m

/-- The pointer `product` that `SomeOperation()` obtains when started in memory `m`. -/
def Creator.made (this : Creator) (m : Memory) : Pointer Product :=
  (this.FactoryMethod this.self m).1

/-- The memory in which `SomeOperation()` starts using its product. -/
def Creator.afterCreation (this : Creator) (m : Memory) : Memory :=
  (this.FactoryMethod this.self m).2

/-- The creation contract `SomeOperation()` relies on: once the factory method
has returned, the pointer refers to a live object. -/
def Creator.Owned (this : Creator) (m : Memory) : Prop :=
  (this.made m).addr ∈ (this.afterCreation m).live

instance (this : Creator) (m : Memory) : Decidable (this.Owned m) :=
  inferInstanceAs (Decidable (_ ∈ _))

/-- The product at `addr` is released exactly once among the events `evs`, and
no event after the release uses it. -/
def ReleasedOnce (addr : Nat) (evs : List Event) : Prop :=
  ∃ pre post : List Event, evs = pre ++ Event.free addr :: post
    ∧ Event.free addr ∉ pre ∧ Event.free addr ∉ post ∧ Event.use addr ∉ post

namespace factory_method

/-- The function `ClientCode(const Creator &creator)`. -/
def ClientCode (creator : Creator) (w : World) : Option World :=
  let w := w.print "Client: I'm not aware of the creator's class, but it still works.\n"
  match creator.SomeOperation w.mem with
  | none => none
  | some (text, m) => some ((World.mk w.cout m).print text).endl

end factory_method

/-! ## Auxiliary facts about text -/

theorem str_append_left_cancel {p r r' : String} (h : p ++ r = p ++ r') : r = r' := by
  have hd := congrArg String.data h
  simp only [String.data_append] at hd
  exact String.ext (List.append_cancel_left hd)

theorem str_append_right_cancel {p r r' : String} (h : r ++ p = r' ++ p) : r = r' := by
  have hd := congrArg String.data h
  simp only [String.data_append] at hd
  exact String.ext (List.append_cancel_right hd)

theorem str_head_eq {p q r r' : String} (hl : p.data.length = q.data.length)
    (h : p ++ r = q ++ r') : p = q := by
  have hd := congrArg String.data h
  simp only [String.data_append] at hd
  exact String.ext (List.append_inj hd hl).1

theorem occurs_of_eq {t s u x : String} (h : s = u ++ t ++ x) : Occurs t s := by
  refine ⟨u.data, x.data, ?_⟩
  rw [h]
  simp only [String.data_append]

theorem B1_text_ne_B2_text (r r' : String) :
    "The result of the B1 collaborating with ( " ++ r ++ " )"
      ≠ "The result of the B2 collaborating with ( " ++ r' ++ " )" := by
  intro h
  rw [String.append_assoc, String.append_assoc] at h
  exact absurd (str_head_eq (by decide) h) (by decide)

theorem collab_text_inj (p r r' : String) (h : p ++ r ++ " )" = p ++ r' ++ " )") : r = r' :=
  str_append_left_cancel (str_append_right_cancel h)

/-! ## Family consistency and collaboration -/

/-- C1. Family consistency: the products of `ConcreteFactory1` describe
themselves as exactly "The result of the product A1." and "The result of the
product B1.", those of `ConcreteFactory2` as "... A2." and "... B2.", whatever
the memory the creation call is made in; each description names its own
variant and contains neither identifier of the other variant. -/
theorem family_consistency (m : Memory) :
    ((ConcreteFactory1.madeA m).UsefulFunctionA (ConcreteFactory1.madeA m).self
        = "The result of the product A1."
      ∧ (ConcreteFactory1.madeB m).UsefulFunctionB (ConcreteFactory1.madeB m).self
        = "The result of the product B1."
      ∧ (ConcreteFactory2.madeA m).UsefulFunctionA (ConcreteFactory2.madeA m).self
        = "The result of the product A2."
      ∧ (ConcreteFactory2.madeB m).UsefulFunctionB (ConcreteFactory2.madeB m).self
        = "The result of the product B2.")
    ∧ (Occurs "A1" ((ConcreteFactory1.madeA m).UsefulFunctionA (ConcreteFactory1.madeA m).self)
      ∧ Occurs "B1" ((ConcreteFactory1.madeB m).UsefulFunctionB (ConcreteFactory1.madeB m).self)
      ∧ Occurs "A2" ((ConcreteFactory2.madeA m).UsefulFunctionA (ConcreteFactory2.madeA m).self)
      ∧ Occurs "B2" ((ConcreteFactory2.madeB m).UsefulFunctionB (ConcreteFactory2.madeB m).self))
    ∧ (¬ Occurs "A2" ((ConcreteFactory1.madeA m).UsefulFunctionA (ConcreteFactory1.madeA m).self)
      ∧ ¬ Occurs "B2" ((ConcreteFactory1.madeA m).UsefulFunctionA (ConcreteFactory1.madeA m).self)
      ∧ ¬ Occurs "A2" ((ConcreteFactory1.madeB m).UsefulFunctionB (ConcreteFactory1.madeB m).self)
      ∧ ¬ Occurs "B2" ((ConcreteFactory1.madeB m).UsefulFunctionB (ConcreteFactory1.madeB m).self))
    ∧ (¬ Occurs "A1" ((ConcreteFactory2.madeA m).UsefulFunctionA (ConcreteFactory2.madeA m).self)
      ∧ ¬ Occurs "B1" ((ConcreteFactory2.madeA m).UsefulFunctionA (ConcreteFactory2.madeA m).self)
      ∧ ¬ Occurs "A1" ((ConcreteFactory2.madeB m).UsefulFunctionB (ConcreteFactory2.madeB m).self)
      ∧ ¬ Occurs "B1" ((ConcreteFactory2.madeB m).UsefulFunctionB (ConcreteFactory2.madeB m).self)) := by
  refine ⟨⟨rfl, rfl, rfl, rfl⟩, ?_, ?_, ?_⟩
  · show Occurs "A1" "The result of the product A1." ∧ Occurs "B1" "The result of the product B1."
      ∧ Occurs "A2" "The result of the product A2." ∧ Occurs "B2" "The result of the product B2."
    decide
  · show ¬ Occurs "A2" "The result of the product A1." ∧ ¬ Occurs "B2" "The result of the product A1."
      ∧ ¬ Occurs "A2" "The result of the product B1." ∧ ¬ Occurs "B2" "The result of the product B1."
    decide
  · show ¬ Occurs "A1" "The result of the product A2." ∧ ¬ Occurs "B1" "The result of the product A2."
      ∧ ¬ Occurs "A1" "The result of the product B2." ∧ ¬ Occurs "B1" "The result of the product B2."
    decide

/-- C2. Same-variant collaboration: with `a` and `b` both created by
`ConcreteFactory1`, `b.AnotherUsefulFunctionB(a)` contains "B1" and the full
description of `a`, which is "The result of the product A1."; with both
created by `ConcreteFactory2` it contains "B2" and "The result of the product
A2.". -/
theorem same_variant_collaboration (m m' : Memory) :
    (Occurs "B1" ((ConcreteFactory1.madeB m').AnotherUsefulFunctionB
        (ConcreteFactory1.madeB m').self (ConcreteFactory1.madeA m))
      ∧ Occurs ((ConcreteFactory1.madeA m).UsefulFunctionA (ConcreteFactory1.madeA m).self)
        ((ConcreteFactory1.madeB m').AnotherUsefulFunctionB
          (ConcreteFactory1.madeB m').self (ConcreteFactory1.madeA m))
      ∧ Occurs "The result of the product A1." ((ConcreteFactory1.madeB m').AnotherUsefulFunctionB
        (ConcreteFactory1.madeB m').self (ConcreteFactory1.madeA m)))
    ∧ (Occurs "B2" ((ConcreteFactory2.madeB m').AnotherUsefulFunctionB
        (ConcreteFactory2.madeB m').self (ConcreteFactory2.madeA m))
      ∧ Occurs ((ConcreteFactory2.madeA m).UsefulFunctionA (ConcreteFactory2.madeA m).self)
        ((ConcreteFactory2.madeB m').AnotherUsefulFunctionB
          (ConcreteFactory2.madeB m').self (ConcreteFactory2.madeA m))
      ∧ Occurs "The result of the product A2." ((ConcreteFactory2.madeB m').AnotherUsefulFunctionB
        (ConcreteFactory2.madeB m').self (ConcreteFactory2.madeA m))) := by
  constructor
  · show Occurs "B1" "The result of the B1 collaborating with ( The result of the product A1. )"
      ∧ Occurs "The result of the product A1."
          "The result of the B1 collaborating with ( The result of the product A1. )"
      ∧ Occurs "The result of the product A1."
          "The result of the B1 collaborating with ( The result of the product A1. )"
    decide
  · show Occurs "B2" "The result of the B2 collaborating with ( The result of the product A2. )"
      ∧ Occurs "The result of the product A2."
          "The result of the B2 collaborating with ( The result of the product A2. )"
      ∧ Occurs "The result of the product A2."
          "The result of the B2 collaborating with ( The result of the product A2. )"
    decide

/-- C3, as stated, fails: the text that `ConcreteProductB2` returns for a
`ConcreteProductA1` collaborator does not contain "B2", then "collaborating
with", then "the result of the product A1." spelled with a lower-case first
letter. -/
theorem cross_variant_probe_lowercase_absent :
    ¬ OccurInOrder "B2" "collaborating with" "the result of the product A1."
        (ConcreteProductB2.AnotherUsefulFunctionB ConcreteProductB2.self ConcreteProductA1) := by
  rintro ⟨u, v, w, x, h⟩
  have hocc : Occurs "the result of the product A1."
      (ConcreteProductB2.AnotherUsefulFunctionB ConcreteProductB2.self ConcreteProductA1) :=
    occurs_of_eq h
  revert hocc
  show ¬ Occurs "the result of the product A1."
    "The result of the B2 collaborating with ( The result of the product A1. )"
  decide

/-- C3, amended. The cross-variant call returns a text (the function is total)
that contains "B2", then "collaborating with", then the description of the
collaborator as the code spells it, "The result of the product A1."; the whole
text is "The result of the B2 collaborating with ( The result of the product
A1. )". -/
theorem cross_variant_probe :
    ConcreteProductB2.AnotherUsefulFunctionB ConcreteProductB2.self ConcreteProductA1
        = "The result of the B2 collaborating with ( The result of the product A1. )"
    ∧ OccurInOrder "B2" "collaborating with" "The result of the product A1."
        (ConcreteProductB2.AnotherUsefulFunctionB ConcreteProductB2.self ConcreteProductA1) :=
  ⟨rfl, "The result of the ", " ", " ( ", " )", rfl⟩

/-- C4. Collaboration determinism: the text returned by `ConcreteProductB1`
and by `ConcreteProductB2` is a fixed function of the collaborator's
description, so two collaborators of any implementation with equal
descriptions give equal texts. -/
theorem collaboration_determinism (a1 a2 : AbstractProductA)
    (h : a1.UsefulFunctionA a1.self = a2.UsefulFunctionA a2.self) :
    (ConcreteProductB1.AnotherUsefulFunctionB ConcreteProductB1.self a1
        = ConcreteProductB1.AnotherUsefulFunctionB ConcreteProductB1.self a2
      ∧ ConcreteProductB2.AnotherUsefulFunctionB ConcreteProductB2.self a1
        = ConcreteProductB2.AnotherUsefulFunctionB ConcreteProductB2.self a2)
    ∧ ConcreteProductB1.AnotherUsefulFunctionB ConcreteProductB1.self a1
        = "The result of the B1 collaborating with ( " ++ a1.UsefulFunctionA a1.self ++ " )"
    ∧ ConcreteProductB2.AnotherUsefulFunctionB ConcreteProductB2.self a1
        = "The result of the B2 collaborating with ( " ++ a1.UsefulFunctionA a1.self ++ " )" := by
  refine ⟨⟨?_, ?_⟩, rfl, rfl⟩
  · show "The result of the B1 collaborating with ( " ++ a1.UsefulFunctionA a1.self ++ " )"
      = "The result of the B1 collaborating with ( " ++ a2.UsefulFunctionA a2.self ++ " )"
    rw [h]
  · show "The result of the B2 collaborating with ( " ++ a1.UsefulFunctionA a1.self ++ " )"
      = "The result of the B2 collaborating with ( " ++ a2.UsefulFunctionA a2.self ++ " )"
    rw [h]

/-- Witness for C4: `ConcreteProductA1` and a collaborator of another
implementation, one that carries a counter as instance data, have the same
description and so give the same collaboration texts. -/
theorem collaboration_determinism_witness :
    ConcreteProductA1.UsefulFunctionA ConcreteProductA1.self
        = (AbstractProductA.mk Nat 7 (fun _ => "The result of the product A1.")).UsefulFunctionA
            (AbstractProductA.mk Nat 7 (fun _ => "The result of the product A1.")).self
    ∧ ConcreteProductB1.AnotherUsefulFunctionB ConcreteProductB1.self ConcreteProductA1
        = ConcreteProductB1.AnotherUsefulFunctionB ConcreteProductB1.self
            (AbstractProductA.mk Nat 7 (fun _ => "The result of the product A1.")) :=
  ⟨rfl, (collaboration_determinism ConcreteProductA1
    (AbstractProductA.mk Nat 7 (fun _ => "The result of the product A1.")) rfl).1.1⟩

/-- The implementations `ConcreteProductB1` and `ConcreteProductB2` differ. -/
theorem ConcreteProductB1_ne_ConcreteProductB2 : ConcreteProductB1 ≠ ConcreteProductB2 := by
  intro h
  have hd := congrArg (fun b : AbstractProductB => b.UsefulFunctionB b.self) h
  revert hd
  show ¬ ("The result of the product B1." = "The result of the product B2.")
  decide

/-- C5. The collaboration text identifies the pairing: `AnotherUsefulFunctionB`
is a total function of any collaborator, and for `b`, `b'` among
`ConcreteProductB1`, `ConcreteProductB2` equal texts force `b = b'` and equal
collaborator descriptions. In particular the pairings (B1,A1), (B1,A2),
(B2,A1), (B2,A2) give four pairwise distinct texts. -/
theorem collaboration_identifies_pairing :
    (∀ (b b' : AbstractProductB) (a a' : AbstractProductA),
      (b = ConcreteProductB1 ∨ b = ConcreteProductB2) →
      (b' = ConcreteProductB1 ∨ b' = ConcreteProductB2) →
      b.AnotherUsefulFunctionB b.self a = b'.AnotherUsefulFunctionB b'.self a' →
        b = b' ∧ a.UsefulFunctionA a.self = a'.UsefulFunctionA a'.self)
    ∧ (ConcreteProductB1.AnotherUsefulFunctionB ConcreteProductB1.self ConcreteProductA1
          ≠ ConcreteProductB1.AnotherUsefulFunctionB ConcreteProductB1.self ConcreteProductA2
      ∧ ConcreteProductB1.AnotherUsefulFunctionB ConcreteProductB1.self ConcreteProductA1
          ≠ ConcreteProductB2.AnotherUsefulFunctionB ConcreteProductB2.self ConcreteProductA1
      ∧ ConcreteProductB1.AnotherUsefulFunctionB ConcreteProductB1.self ConcreteProductA1
          ≠ ConcreteProductB2.AnotherUsefulFunctionB ConcreteProductB2.self ConcreteProductA2
      ∧ ConcreteProductB1.AnotherUsefulFunctionB ConcreteProductB1.self ConcreteProductA2
          ≠ ConcreteProductB2.AnotherUsefulFunctionB ConcreteProductB2.self ConcreteProductA1
      ∧ ConcreteProductB1.AnotherUsefulFunctionB ConcreteProductB1.self ConcreteProductA2
          ≠ ConcreteProductB2.AnotherUsefulFunctionB ConcreteProductB2.self ConcreteProductA2
      ∧ ConcreteProductB2.AnotherUsefulFunctionB ConcreteProductB2.self ConcreteProductA1
          ≠ ConcreteProductB2.AnotherUsefulFunctionB ConcreteProductB2.self ConcreteProductA2) := by
  constructor
  · intro b b' a a' hb hb' h
    rcases hb with rfl | rfl <;> rcases hb' with rfl | rfl
    · exact ⟨rfl, collab_text_inj _ _ _ h⟩
    · exact absurd h (B1_text_ne_B2_text _ _)
    · exact absurd h.symm (B1_text_ne_B2_text _ _)
    · exact ⟨rfl, collab_text_inj _ _ _ h⟩
  · show "The result of the B1 collaborating with ( The result of the product A1. )"
        ≠ "The result of the B1 collaborating with ( The result of the product A2. )"
      ∧ "The result of the B1 collaborating with ( The result of the product A1. )"
        ≠ "The result of the B2 collaborating with ( The result of the product A1. )"
      ∧ "The result of the B1 collaborating with ( The result of the product A1. )"
        ≠ "The result of the B2 collaborating with ( The result of the product A2. )"
      ∧ "The result of the B1 collaborating with ( The result of the product A2. )"
        ≠ "The result of the B2 collaborating with ( The result of the product A1. )"
      ∧ "The result of the B1 collaborating with ( The result of the product A2. )"
        ≠ "The result of the B2 collaborating with ( The result of the product A2. )"
      ∧ "The result of the B2 collaborating with ( The result of the product A1. )"
        ≠ "The result of the B2 collaborating with ( The result of the product A2. )"
    decide

/-- Witness for C5: the same-variant text of `ConcreteProductB1` equals itself,
and the theorem returns the pairing (B1, description of A1). -/
theorem collaboration_identifies_pairing_witness :
    ConcreteProductB1 = ConcreteProductB1
      ∧ ConcreteProductA1.UsefulFunctionA ConcreteProductA1.self
          = (AbstractProductA.mk Nat 7 (fun _ => "The result of the product A1.")).UsefulFunctionA
              (AbstractProductA.mk Nat 7 (fun _ => "The result of the product A1.")).self :=
  collaboration_identifies_pairing.1 ConcreteProductB1 ConcreteProductB1 ConcreteProductA1
    (AbstractProductA.mk Nat 7 (fun _ => "The result of the product A1."))
    (Or.inl rfl) (Or.inl rfl) rfl

/-! ## The client of the abstract factory -/

/-- What `ClientCode(factory)` does when the creation contract holds: it
returns, having written the two texts and released both products. -/
theorem ClientCode_run (factory : AbstractFactory) (w : World)
    (h : abstract_factory.Owned factory w.mem) :
    abstract_factory.ClientCode factory w
      = some
          { cout := w.cout
              ++ (abstract_factory.obtainedB factory w.mem).obj.UsefulFunctionB
                  (abstract_factory.obtainedB factory w.mem).obj.self
              ++ "\n"
              ++ (abstract_factory.obtainedB factory w.mem).obj.AnotherUsefulFunctionB
                  (abstract_factory.obtainedB factory w.mem).obj.self
                  (abstract_factory.obtainedA factory w.mem).obj
              ++ "\n"
            mem :=
              { next := (abstract_factory.afterCreation factory w.mem).next
                live := ((abstract_factory.afterCreation factory w.mem).live.erase
                  (abstract_factory.obtainedA factory w.mem).addr).erase
                  (abstract_factory.obtainedB factory w.mem).addr
                log := (abstract_factory.afterCreation factory w.mem).log
                  ++ [Event.use (abstract_factory.obtainedB factory w.mem).addr,
                      Event.use (abstract_factory.obtainedB factory w.mem).addr,
                      Event.use (abstract_factory.obtainedA factory w.mem).addr,
                      Event.free (abstract_factory.obtainedA factory w.mem).addr,
                      Event.free (abstract_factory.obtainedB factory w.mem).addr] } } := by
  obtain ⟨ha, hb, hne⟩ := h
  have hb' : (abstract_factory.obtainedB factory w.mem).addr
      ∈ (abstract_factory.afterCreation factory w.mem).live.erase
          (abstract_factory.obtainedA factory w.mem).addr :=
    (List.mem_erase_of_ne (Ne.symm hne)).2 hb
  simp only [abstract_factory.obtainedA, abstract_factory.obtainedB,
    abstract_factory.afterCreation] at ha hb hb' ⊢
  simp [abstract_factory.ClientCode, Pointer.deref, Pointer.delete, World.print, ha, hb, hb',
    String.append_assoc]

theorem ConcreteFactory1_owned (m : Memory) : abstract_factory.Owned ConcreteFactory1 m := by
  simp [abstract_factory.Owned, abstract_factory.obtainedA, abstract_factory.obtainedB,
    abstract_factory.afterCreation, ConcreteFactory1, Memory.new]

theorem ConcreteFactory2_owned (m : Memory) : abstract_factory.Owned ConcreteFactory2 m := by
  simp [abstract_factory.Owned, abstract_factory.obtainedA, abstract_factory.obtainedB,
    abstract_factory.afterCreation, ConcreteFactory2, Memory.new]

theorem ClientCode_ConcreteFactory1 (w : World) :
    abstract_factory.ClientCode ConcreteFactory1 w
      = some
          { cout := w.cout ++ "The result of the product B1.\n"
              ++ "The result of the B1 collaborating with ( The result of the product A1. )\n"
            mem :=
              { next := w.mem.next + 2
                live := w.mem.live
                log := w.mem.log
                  ++ [Event.alloc w.mem.next, Event.alloc (w.mem.next + 1),
                      Event.use (w.mem.next + 1), Event.use (w.mem.next + 1),
                      Event.use w.mem.next,
                      Event.free w.mem.next, Event.free (w.mem.next + 1)] } } := by
  rw [ClientCode_run ConcreteFactory1 w (ConcreteFactory1_owned w.mem)]
  simp only [abstract_factory.obtainedA, abstract_factory.obtainedB,
    abstract_factory.afterCreation, ConcreteFactory1, Memory.new, ConcreteProductB1,
    ConcreteProductA1]
  have e1 : "The result of the B1 collaborating with ( " ++ "The result of the product A1." ++ " )"
      = "The result of the B1 collaborating with ( The result of the product A1. )" := by decide
  have e2 : "The result of the product B1." ++ "\n" = "The result of the product B1.\n" := by
    decide
  have e3 : "The result of the B1 collaborating with ( The result of the product A1. )" ++ "\n"
      = "The result of the B1 collaborating with ( The result of the product A1. )\n" := by decide
  simp [e1, ← e2, ← e3, String.append_assoc]

theorem ClientCode_ConcreteFactory2 (w : World) :
    abstract_factory.ClientCode ConcreteFactory2 w
      = some
          { cout := w.cout ++ "The result of the product B2.\n"
              ++ "The result of the B2 collaborating with ( The result of the product A2. )\n"
            mem :=
              { next := w.mem.next + 2
                live := w.mem.live
                log := w.mem.log
                  ++ [Event.alloc w.mem.next, Event.alloc (w.mem.next + 1),
                      Event.use (w.mem.next + 1), Event.use (w.mem.next + 1),
                      Event.use w.mem.next,
                      Event.free w.mem.next, Event.free (w.mem.next + 1)] } } := by
  rw [ClientCode_run ConcreteFactory2 w (ConcreteFactory2_owned w.mem)]
  simp only [abstract_factory.obtainedA, abstract_factory.obtainedB,
    abstract_factory.afterCreation, ConcreteFactory2, Memory.new, ConcreteProductB2,
    ConcreteProductA2]
  have e1 : "The result of the B2 collaborating with ( " ++ "The result of the product A2." ++ " )"
      = "The result of the B2 collaborating with ( The result of the product A2. )" := by decide
  have e2 : "The result of the product B2." ++ "\n" = "The result of the product B2.\n" := by
    decide
  have e3 : "The result of the B2 collaborating with ( The result of the product A2. )" ++ "\n"
      = "The result of the B2 collaborating with ( The result of the product A2. )\n" := by decide
  simp [e1, ← e2, ← e3, String.append_assoc]

/-- The whole demonstration `MainAbstractFactory()` returns in every world,
having written its six lines and released everything it allocated. -/
theorem MainAbstractFactory_run (w : World) :
    ∃ w' : World, abstract_factory.MainAbstractFactory w = some w'
      ∧ w'.cout = w.cout ++ "Client: Testing client code with the first factory type:\n"
          ++ "The result of the product B1.\n"
          ++ "The result of the B1 collaborating with ( The result of the product A1. )\n"
          ++ "\n"
          ++ "Client: Testing the same client code with the second factory type:\n"
          ++ "The result of the product B2.\n"
          ++ "The result of the B2 collaborating with ( The result of the product A2. )\n"
      ∧ w'.mem.live = w.mem.live := by
  simp [abstract_factory.MainAbstractFactory, Memory.new, Pointer.deref, Pointer.delete,
    World.print, World.endl, ClientCode_ConcreteFactory1, ClientCode_ConcreteFactory2,
    String.append_assoc]

/-- C6. Client protocol: for every factory honouring the creation contract,
`ClientCode(factory)` returns and appends to standard output exactly
`b.UsefulFunctionB()`, a newline, `b.AnotherUsefulFunctionB(a)`, a newline,
where `a` and `b` are the products obtained from that same factory. For
`ConcreteFactory1`, in any world, the text appended is "The result of the
product B1.\n" followed by "The result of the B1 collaborating with ( The
result of the product A1. )\n". -/
theorem client_protocol :
    (∀ (factory : AbstractFactory) (w : World), abstract_factory.Owned factory w.mem →
      (abstract_factory.ClientCode factory w).map World.cout
        = some (w.cout
            ++ (abstract_factory.obtainedB factory w.mem).obj.UsefulFunctionB
                (abstract_factory.obtainedB factory w.mem).obj.self
            ++ "\n"
            ++ (abstract_factory.obtainedB factory w.mem).obj.AnotherUsefulFunctionB
                (abstract_factory.obtainedB factory w.mem).obj.self
                (abstract_factory.obtainedA factory w.mem).obj
            ++ "\n"))
    ∧ (∀ w : World,
      (abstract_factory.ClientCode ConcreteFactory1 w).map World.cout
        = some (w.cout ++ "The result of the product B1.\n"
            ++ "The result of the B1 collaborating with ( The result of the product A1. )\n")) := by
  constructor
  · intro factory w h
    rw [ClientCode_run factory w h]
    rfl
  · intro w
    rw [ClientCode_ConcreteFactory1 w]
    rfl

/-- Witness for C6: `ConcreteFactory2` started with empty output and an empty
free store honours the creation contract, and the client writes its two
lines. -/
theorem client_protocol_witness :
    abstract_factory.Owned ConcreteFactory2 (World.mk "" (Memory.mk 0 [] [])).mem
      ∧ (abstract_factory.ClientCode ConcreteFactory2 (World.mk "" (Memory.mk 0 [] []))).map
          World.cout
        = some ("The result of the product B2.\n"
            ++ "The result of the B2 collaborating with ( The result of the product A2. )\n") :=
  ⟨by decide,
   (client_protocol.1 ConcreteFactory2 (World.mk "" (Memory.mk 0 [] [])) (by decide)).trans
     (by decide)⟩

/-- C8. Client type-ignorance: two factories honouring the creation contract
whose products give the same `UsefulFunctionA`, `UsefulFunctionB` and
`AnotherUsefulFunctionB` results make `ClientCode` append the same text; and
the text is one fixed function of those interface results for every factory,
`ConcreteFactory1` and `ConcreteFactory2` included, with no case distinction
on the factory. -/
theorem client_type_ignorance :
    (∀ (f g : AbstractFactory) (w w' : World), w.cout = w'.cout →
      abstract_factory.Owned f w.mem → abstract_factory.Owned g w'.mem →
      (abstract_factory.obtainedA f w.mem).obj.UsefulFunctionA
          (abstract_factory.obtainedA f w.mem).obj.self
        = (abstract_factory.obtainedA g w'.mem).obj.UsefulFunctionA
            (abstract_factory.obtainedA g w'.mem).obj.self →
      (abstract_factory.obtainedB f w.mem).obj.UsefulFunctionB
          (abstract_factory.obtainedB f w.mem).obj.self
        = (abstract_factory.obtainedB g w'.mem).obj.UsefulFunctionB
            (abstract_factory.obtainedB g w'.mem).obj.self →
      (abstract_factory.obtainedB f w.mem).obj.AnotherUsefulFunctionB
          (abstract_factory.obtainedB f w.mem).obj.self (abstract_factory.obtainedA f w.mem).obj
        = (abstract_factory.obtainedB g w'.mem).obj.AnotherUsefulFunctionB
            (abstract_factory.obtainedB g w'.mem).obj.self
            (abstract_factory.obtainedA g w'.mem).obj →
      (abstract_factory.ClientCode f w).map World.cout
        = (abstract_factory.ClientCode g w').map World.cout)
    ∧ (∃ routine : String → String → String → String,
        (∀ (factory : AbstractFactory) (w : World), abstract_factory.Owned factory w.mem →
          (abstract_factory.ClientCode factory w).map World.cout
            = some (routine w.cout
                ((abstract_factory.obtainedB factory w.mem).obj.UsefulFunctionB
                  (abstract_factory.obtainedB factory w.mem).obj.self)
                ((abstract_factory.obtainedB factory w.mem).obj.AnotherUsefulFunctionB
                  (abstract_factory.obtainedB factory w.mem).obj.self
                  (abstract_factory.obtainedA factory w.mem).obj)))
        ∧ (∀ w : World,
          (abstract_factory.ClientCode ConcreteFactory1 w).map World.cout
            = some (routine w.cout
                (ConcreteProductB1.UsefulFunctionB ConcreteProductB1.self)
                (ConcreteProductB1.AnotherUsefulFunctionB ConcreteProductB1.self
                  ConcreteProductA1)))
        ∧ (∀ w : World,
          (abstract_factory.ClientCode ConcreteFactory2 w).map World.cout
            = some (routine w.cout
                (ConcreteProductB2.UsefulFunctionB ConcreteProductB2.self)
                (ConcreteProductB2.AnotherUsefulFunctionB ConcreteProductB2.self
                  ConcreteProductA2)))) := by
  constructor
  · intro f g w w' hout hf hg _ hB hAB
    rw [ClientCode_run f w hf, ClientCode_run g w' hg]
    simp only [Option.map_some']
    rw [hout, hB, hAB]
  · refine ⟨fun out line1 line2 => out ++ line1 ++ "\n" ++ line2 ++ "\n", ?_, ?_, ?_⟩
    · intro factory w h
      rw [ClientCode_run factory w h]
      rfl
    · intro w
      rw [ClientCode_run ConcreteFactory1 w (ConcreteFactory1_owned w.mem)]
      rfl
    · intro w
      rw [ClientCode_run ConcreteFactory2 w (ConcreteFactory2_owned w.mem)]
      rfl

/-- Witness for C8: `ConcreteFactory1` and a factory of another implementation,
one that carries instance data and creates the same variant-1 products, make
the client write the same text. -/
theorem client_type_ignorance_witness :
    (abstract_factory.ClientCode ConcreteFactory1 (World.mk "" (Memory.mk 0 [] []))).map World.cout
      = (abstract_factory.ClientCode
          (AbstractFactory.mk Bool true (fun _ m => Memory.new ConcreteProductA1 m)
            (fun _ m => Memory.new ConcreteProductB1 m))
          (World.mk "" (Memory.mk 4 [2] []))).map World.cout :=
  client_type_ignorance.1 ConcreteFactory1
    (AbstractFactory.mk Bool true (fun _ m => Memory.new ConcreteProductA1 m)
      (fun _ m => Memory.new ConcreteProductB1 m))
    (World.mk "" (Memory.mk 0 [] [])) (World.mk "" (Memory.mk 4 [2] []))
    rfl (by decide) (by decide) rfl rfl rfl

/-! ## The creator of the factory method -/

/-- What `SomeOperation()` does when the creation contract holds: it returns
the wrapped description, having released the product. -/
theorem SomeOperation_run (this : Creator) (m : Memory) (h : this.Owned m) :
    this.SomeOperation m
      = some
          ("Creator: The same creator's code has just worked with "
              ++ (this.made m).obj.Operation (this.made m).obj.self,
            { next := (this.afterCreation m).next
              live := (this.afterCreation m).live.erase (this.made m).addr
              log := (this.afterCreation m).log
                ++ [Event.use (this.made m).addr, Event.free (this.made m).addr] }) := by
  simp only [Creator.Owned, Creator.made, Creator.afterCreation] at h ⊢
  simp [Creator.SomeOperation, Pointer.deref, Pointer.delete, h]

theorem ConcreteCreator1_owned (m : Memory) : ConcreteCreator1.Owned m := by
  simp [Creator.Owned, Creator.made, Creator.afterCreation, ConcreteCreator1, Memory.new]

theorem ConcreteCreator2_owned (m : Memory) : ConcreteCreator2.Owned m := by
  simp [Creator.Owned, Creator.made, Creator.afterCreation, ConcreteCreator2, Memory.new]

theorem SomeOperation_ConcreteCreator1 (m : Memory) :
    ConcreteCreator1.SomeOperation m
      = some
          ("Creator: The same creator's code has just worked with \x7bResult of the ConcreteProduct1\x7d",
            { next := m.next + 1
              live := m.live
              log := m.log ++ [Event.alloc m.next, Event.use m.next, Event.free m.next] }) := by
  rw [SomeOperation_run ConcreteCreator1 m (ConcreteCreator1_owned m)]
  simp only [Creator.made, Creator.afterCreation, ConcreteCreator1, Memory.new, ConcreteProduct1]
  have e : "Creator: The same creator's code has just worked with "
        ++ "\x7bResult of the ConcreteProduct1\x7d"
      = "Creator: The same creator's code has just worked with \x7bResult of the ConcreteProduct1\x7d" := by
    decide
  simp [e]

theorem SomeOperation_ConcreteCreator2 (m : Memory) :
    ConcreteCreator2.SomeOperation m
      = some
          ("Creator: The same creator's code has just worked with \x7bResult of the ConcreteProduct2\x7d",
            { next := m.next + 1
              live := m.live
              log := m.log ++ [Event.alloc m.next, Event.use m.next, Event.free m.next] }) := by
  rw [SomeOperation_run ConcreteCreator2 m (ConcreteCreator2_owned m)]
  simp only [Creator.made, Creator.afterCreation, ConcreteCreator2, Memory.new, ConcreteProduct2]
  have e : "Creator: The same creator's code has just worked with "
        ++ "\x7bResult of the ConcreteProduct2\x7d"
      = "Creator: The same creator's code has just worked with \x7bResult of the ConcreteProduct2\x7d" := by
    decide
  simp [e]

/-- The client of the factory method: under the creation contract it returns,
having written its fixed line, the text of `SomeOperation()` and a newline. -/
theorem factory_method_ClientCode_run (creator : Creator) (w : World) (h : creator.Owned w.mem) :
    (factory_method.ClientCode creator w).map World.cout
      = some (w.cout ++ "Client: I'm not aware of the creator's class, but it still works.\n"
          ++ ("Creator: The same creator's code has just worked with "
            ++ (creator.made w.mem).obj.Operation (creator.made w.mem).obj.self)
          ++ "\n") := by
  have hrun := SomeOperation_run creator w.mem h
  simp [factory_method.ClientCode, World.print, World.endl, hrun, String.append_assoc]

/-- C7. Factory-method template operation: for every creator honouring the
creation contract, `SomeOperation()` returns exactly "Creator: The same
creator's code has just worked with " followed by the `Operation()` result of
the product its `FactoryMethod()` returns, the wrapping text being the same for
every creator. For `ConcreteCreator1` the result is that text followed by
"{Result of the ConcreteProduct1}" (braces included), for `ConcreteCreator2`
by "{Result of the ConcreteProduct2}". -/
theorem template_operation :
    (∀ (creator : Creator) (m : Memory), creator.Owned m →
      (creator.SomeOperation m).map Prod.fst
        = some ("Creator: The same creator's code has just worked with "
            ++ (creator.made m).obj.Operation (creator.made m).obj.self))
    ∧ (∀ m : Memory, (ConcreteCreator1.SomeOperation m).map Prod.fst
        = some "Creator: The same creator's code has just worked with \x7bResult of the ConcreteProduct1\x7d")
    ∧ (∀ m : Memory, (ConcreteCreator2.SomeOperation m).map Prod.fst
        = some "Creator: The same creator's code has just worked with \x7bResult of the ConcreteProduct2\x7d") := by
  refine ⟨?_, ?_, ?_⟩
  · intro creator m h
    rw [SomeOperation_run creator m h]
    rfl
  · intro m
    rw [SomeOperation_ConcreteCreator1 m]
    rfl
  · intro m
    rw [SomeOperation_ConcreteCreator2 m]
    rfl

/-- Witness for C7: a creator of another implementation, carrying instance
data and returning a product of its own, honours the creation contract in a
free store holding other objects, and its text is the fixed wrapping followed by
that product's description. -/
theorem template_operation_witness :
    (Creator.mk Nat 3 (fun n m => Memory.new (Product.mk Nat n (fun _ => "custom")) m)).Owned
        (Memory.mk 5 [1, 4] [])
      ∧ ((Creator.mk Nat 3 (fun n m =>
            Memory.new (Product.mk Nat n (fun _ => "custom")) m)).SomeOperation
          (Memory.mk 5 [1, 4] [])).map Prod.fst
        = some "Creator: The same creator's code has just worked with custom" :=
  ⟨by decide,
   (template_operation.1
      (Creator.mk Nat 3 (fun n m => Memory.new (Product.mk Nat n (fun _ => "custom")) m))
      (Memory.mk 5 [1, 4] []) (by decide)).trans (by decide)⟩

/-! ## Ownership -/

/-- C9. Ownership. Under the creation contract `ClientCode(factory)` returns,
and from the creation of its two products on it performs exactly: two uses of
`product_b`, one use of `product_a`, the release of `product_a`, the release of
`product_b`; each product is released exactly once, after its last use, and
both addresses leave the live set. Under the creation contract
`SomeOperation()` returns, having performed exactly one use of its product
followed by its release. For the concrete factories and creators this holds in
every memory, and the live set on return is the live set on entry. -/
theorem ownership :
    (∀ (factory : AbstractFactory) (w : World), abstract_factory.Owned factory w.mem →
      ∃ w' : World, abstract_factory.ClientCode factory w = some w'
        ∧ w'.mem.log = (abstract_factory.afterCreation factory w.mem).log
            ++ [Event.use (abstract_factory.obtainedB factory w.mem).addr,
                Event.use (abstract_factory.obtainedB factory w.mem).addr,
                Event.use (abstract_factory.obtainedA factory w.mem).addr,
                Event.free (abstract_factory.obtainedA factory w.mem).addr,
                Event.free (abstract_factory.obtainedB factory w.mem).addr]
        ∧ w'.mem.live = ((abstract_factory.afterCreation factory w.mem).live.erase
            (abstract_factory.obtainedA factory w.mem).addr).erase
            (abstract_factory.obtainedB factory w.mem).addr
        ∧ ReleasedOnce (abstract_factory.obtainedA factory w.mem).addr
            [Event.use (abstract_factory.obtainedB factory w.mem).addr,
             Event.use (abstract_factory.obtainedB factory w.mem).addr,
             Event.use (abstract_factory.obtainedA factory w.mem).addr,
             Event.free (abstract_factory.obtainedA factory w.mem).addr,
             Event.free (abstract_factory.obtainedB factory w.mem).addr]
        ∧ ReleasedOnce (abstract_factory.obtainedB factory w.mem).addr
            [Event.use (abstract_factory.obtainedB factory w.mem).addr,
             Event.use (abstract_factory.obtainedB factory w.mem).addr,
             Event.use (abstract_factory.obtainedA factory w.mem).addr,
             Event.free (abstract_factory.obtainedA factory w.mem).addr,
             Event.free (abstract_factory.obtainedB factory w.mem).addr])
    ∧ (∀ (creator : Creator) (m : Memory), creator.Owned m →
      ∃ (text : String) (m' : Memory), creator.SomeOperation m = some (text, m')
        ∧ m'.log = (creator.afterCreation m).log
            ++ [Event.use (creator.made m).addr, Event.free (creator.made m).addr]
        ∧ m'.live = (creator.afterCreation m).live.erase (creator.made m).addr
        ∧ ReleasedOnce (creator.made m).addr
            [Event.use (creator.made m).addr, Event.free (creator.made m).addr])
    ∧ (∀ (factory : AbstractFactory) (w : World),
      (factory = ConcreteFactory1 ∨ factory = ConcreteFactory2) →
      ∃ w' : World, abstract_factory.ClientCode factory w = some w'
        ∧ w'.mem.log = w.mem.log
            ++ [Event.alloc w.mem.next, Event.alloc (w.mem.next + 1),
                Event.use (w.mem.next + 1), Event.use (w.mem.next + 1), Event.use w.mem.next,
                Event.free w.mem.next, Event.free (w.mem.next + 1)]
        ∧ w'.mem.live = w.mem.live)
    ∧ (∀ (creator : Creator) (m : Memory),
      (creator = ConcreteCreator1 ∨ creator = ConcreteCreator2) →
      ∃ (text : String) (m' : Memory), creator.SomeOperation m = some (text, m')
        ∧ m'.log = m.log ++ [Event.alloc m.next, Event.use m.next, Event.free m.next]
        ∧ m'.live = m.live) := by
  refine ⟨?_, ?_, ?_, ?_⟩
  · intro factory w h
    refine ⟨_, ClientCode_run factory w h, rfl, rfl, ?_, ?_⟩
    · refine ⟨[Event.use (abstract_factory.obtainedB factory w.mem).addr,
          Event.use (abstract_factory.obtainedB factory w.mem).addr,
          Event.use (abstract_factory.obtainedA factory w.mem).addr],
        [Event.free (abstract_factory.obtainedB factory w.mem).addr], rfl, ?_, ?_, ?_⟩
      · simp
      · simpa using h.2.2
      · simp
    · refine ⟨[Event.use (abstract_factory.obtainedB factory w.mem).addr,
          Event.use (abstract_factory.obtainedB factory w.mem).addr,
          Event.use (abstract_factory.obtainedA factory w.mem).addr,
          Event.free (abstract_factory.obtainedA factory w.mem).addr], [], rfl, ?_, ?_, ?_⟩
      · simpa using Ne.symm h.2.2
      · simp
      · simp
  · intro creator m h
    refine ⟨_, _, SomeOperation_run creator m h, rfl, rfl, ?_⟩
    exact ⟨[Event.use (creator.made m).addr], [], rfl, by simp, by simp, by simp⟩
  · intro factory w h
    rcases h with rfl | rfl
    · exact ⟨_, ClientCode_ConcreteFactory1 w, rfl, rfl⟩
    · exact ⟨_, ClientCode_ConcreteFactory2 w, rfl, rfl⟩
  · intro creator m h
    rcases h with rfl | rfl
    · exact ⟨_, _, SomeOperation_ConcreteCreator1 m, rfl, rfl⟩
    · exact ⟨_, _, SomeOperation_ConcreteCreator2 m, rfl, rfl⟩

/-- Witness for C9: `ConcreteFactory1`, started in a free store that already
holds two live objects, honours the creation contract; the client releases
both of its products, each once and after its last use, and leaves the two
other objects live. -/
theorem ownership_witness :
    abstract_factory.Owned ConcreteFactory1 (World.mk "" (Memory.mk 5 [1, 4] [])).mem
      ∧ ∃ w' : World,
          abstract_factory.ClientCode ConcreteFactory1 (World.mk "" (Memory.mk 5 [1, 4] []))
            = some w'
          ∧ w'.mem.log = [Event.alloc 5, Event.alloc 6, Event.use 6, Event.use 6, Event.use 5,
              Event.free 5, Event.free 6]
          ∧ w'.mem.live = [1, 4]
          ∧ ReleasedOnce 5 [Event.use 6, Event.use 6, Event.use 5, Event.free 5, Event.free 6]
          ∧ ReleasedOnce 6 [Event.use 6, Event.use 6, Event.use 5, Event.free 5, Event.free 6] :=
  ⟨by decide,
   ownership.1 ConcreteFactory1 (World.mk "" (Memory.mk 5 [1, 4] [])) (by decide)⟩

/-! ## What `SomeOperation()` reflects -/

/-- C10. `SomeOperation()` reflects the created product and nothing else: for
two creators honouring the creation contract the returned texts are equal if
and only if the `Operation()` results of their products are equal. The texts of
`ConcreteCreator1` and `ConcreteCreator2` differ, and calling `SomeOperation()`
a second time on the same concrete creator, in the memory the first call left,
returns the same text. -/
theorem some_operation_reflects_product :
    (∀ (c d : Creator) (m m' : Memory), c.Owned m → d.Owned m' →
      ((c.SomeOperation m).map Prod.fst = (d.SomeOperation m').map Prod.fst
        ↔ (c.made m).obj.Operation (c.made m).obj.self
            = (d.made m').obj.Operation (d.made m').obj.self))
    ∧ (∀ m m' : Memory,
      (ConcreteCreator1.SomeOperation m).map Prod.fst
        ≠ (ConcreteCreator2.SomeOperation m').map Prod.fst)
    ∧ (∀ (creator : Creator) (m : Memory),
      (creator = ConcreteCreator1 ∨ creator = ConcreteCreator2) →
      ∃ (text : String) (m₁ m₂ : Memory),
        creator.SomeOperation m = some (text, m₁)
          ∧ creator.SomeOperation m₁ = some (text, m₂)) := by
  refine ⟨?_, ?_, ?_⟩
  · intro c d m m' hc hd
    rw [SomeOperation_run c m hc, SomeOperation_run d m' hd]
    simp only [Option.map_some', Option.some.injEq]
    constructor
    · intro h
      exact str_append_left_cancel h
    · intro h
      rw [h]
  · intro m m'
    rw [SomeOperation_ConcreteCreator1 m, SomeOperation_ConcreteCreator2 m']
    simp only [Option.map_some', ne_eq, Option.some.injEq]
    decide
  · intro creator m h
    rcases h with rfl | rfl
    · exact ⟨_, _, _, SomeOperation_ConcreteCreator1 m, SomeOperation_ConcreteCreator1 _⟩
    · exact ⟨_, _, _, SomeOperation_ConcreteCreator2 m, SomeOperation_ConcreteCreator2 _⟩

/-- Witness for C10: `ConcreteCreator1` and a creator of another
implementation that also returns a `ConcreteProduct1` honour the creation
contract in different memories and return the same text. -/
theorem some_operation_reflects_product_witness :
    ConcreteCreator1.Owned (Memory.mk 0 [] [])
      ∧ (Creator.mk Nat 3 (fun _ m => Memory.new ConcreteProduct1 m)).Owned (Memory.mk 5 [1, 4] [])
      ∧ (ConcreteCreator1.SomeOperation (Memory.mk 0 [] [])).map Prod.fst
          = ((Creator.mk Nat 3 (fun _ m => Memory.new ConcreteProduct1 m)).SomeOperation
              (Memory.mk 5 [1, 4] [])).map Prod.fst :=
  ⟨by decide, by decide,
   ((some_operation_reflects_product.1 ConcreteCreator1
      (Creator.mk Nat 3 (fun _ m => Memory.new ConcreteProduct1 m))
      (Memory.mk 0 [] []) (Memory.mk 5 [1, 4] []) (by decide) (by decide)).2 rfl)⟩
